import Mathlib

/-!
Verification of the livekit-customer-avatar frontend control logic.

Shallow embedding of:
- the avatar setup reducer (src/frontend/hooks/useAvatarSetup.ts),
- the photo capture component's startCamera / enhancePhoto handlers
  (src/frontend/components/PhotoCapture.tsx),
- the enhance-image route's catch block (src/frontend/app/api/enhance-image/route.ts),
- the switch-mode route handler.
-/

namespace AvatarApp

/-- Step enum of `AvatarSetupState` in useAvatarSetup.ts:
the TS union is exactly `photo-capture | ready | skipped`. -/
inductive Step
  | photoCapture
  | ready
  | skipped
  deriving DecidableEq, Repr, Fintype

/-- Photos (JS `Blob`) are modelled as their byte content, abstracted to a string. -/
abbrev Blob := String

/-- State of the avatar setup flow (useAvatarSetup.ts lines 4-9). -/
structure AvatarSetupState where
  step : Step
  userPhoto : Option Blob
  assetId : Option String
  error : Option String
  deriving DecidableEq, Repr

/-- Action union of the avatar setup reducer (useAvatarSetup.ts lines 11-18). -/
inductive AvatarSetupAction
  | PHOTO_CAPTURED (payload : Blob)
  | AVATAR_CREATION_STARTED
  | AVATAR_CREATED (payload : String)
  | AVATAR_CREATION_FAILED (payload : String)
  | PHOTO_SKIPPED
  | SHOW_PHOTO_CAPTURE
  | RESET
  deriving DecidableEq, Repr

/-- Initial state (useAvatarSetup.ts lines 20-25): starts in `ready`, all other fields null. -/
def initialState : AvatarSetupState :=
  { step := Step.ready, userPhoto := none, assetId := none, error := none }

/-- The reducer `avatarSetupReducer` (useAvatarSetup.ts lines 27-78), case by case. -/
def avatarSetupReducer (state : AvatarSetupState) (action : AvatarSetupAction) :
    AvatarSetupState :=
  match action with
  | AvatarSetupAction.PHOTO_CAPTURED payload =>
      { state with userPhoto := some payload, step := Step.ready, error := none }
  | AvatarSetupAction.AVATAR_CREATION_STARTED =>
      { state with error := none }
  | AvatarSetupAction.AVATAR_CREATED payload =>
      { state with assetId := some payload, step := Step.ready, error := none }
  | AvatarSetupAction.AVATAR_CREATION_FAILED payload =>
      { state with step := Step.ready, error := some payload }
  | AvatarSetupAction.PHOTO_SKIPPED =>
      { state with step := Step.skipped, error := none }
  | AvatarSetupAction.SHOW_PHOTO_CAPTURE =>
      { state with step := Step.photoCapture, error := none }
  | AvatarSetupAction.RESET => initialState

/-- Browser localStorage modelled as an association list of key/value pairs. -/
abbrev LocalStorage := List (String × String)

/-- The `localStorage.removeItem(key)` operation: drops every binding of `key`. -/
def localStorageRemoveItem (store : LocalStorage) (key : String) : LocalStorage :=
  store.filter (fun kv => kv.1 != key)

/-- Combined result of the `reset` callback (useAvatarSetup.ts lines 151-169):
the dispatched RESET through the reducer plus the localStorage mutation. -/
structure ResetEffect where
  state : AvatarSetupState
  storage : LocalStorage
  deriving DecidableEq, Repr

/-- The `reset` callback: removes the "hedraAssetId" localStorage key and dispatches RESET. -/
def resetAvatarSetup (s : AvatarSetupState) (store : LocalStorage) : ResetEffect :=
  { state := avatarSetupReducer s AvatarSetupAction.RESET
    storage := localStorageRemoveItem store "hedraAssetId" }

/-- Sub-step enum of the PhotoCapture component (`currentStep` useState). -/
inductive CaptureStep
  | capture
  | enhance
  | confirm
  deriving DecidableEq, Repr

/-- Component state of PhotoCapture.tsx (its useState hooks, lines 14-20).
A live `MediaStream` is modelled as an opaque numeric handle. -/
structure PhotoCaptureState where
  stream : Option Nat
  isStreaming : Bool
  capturedPhoto : Option String
  enhancedPhoto : Option String
  isEnhancing : Bool
  error : Option String
  currentStep : CaptureStep
  deriving DecidableEq, Repr

/-- Initial PhotoCapture component state: nothing streaming, nothing captured. -/
def initialPhotoCaptureState : PhotoCaptureState :=
  { stream := none, isStreaming := false, capturedPhoto := none, enhancedPhoto := none
    isEnhancing := false, error := none, currentStep := CaptureStep.capture }

/-- Environment model: the failure causes `getUserMedia` can raise in a browser
(DOMException names plus the insecure-context case). The handler in the source
never inspects the cause. -/
inductive CameraError
  | notAllowed
  | notFound
  | notSupported
  | notReadable
  | insecureContext
  | other (msg : String)
  deriving DecidableEq, Repr

/-- The single error message startCamera sets on any failure (PhotoCapture.tsx line 43). -/
def cameraFailureMessage : String :=
  "Failed to access camera. Please ensure camera permissions are granted."

/-- The `startCamera` handler (PhotoCapture.tsx lines 22-46): clears the error,
awaits `getUserMedia`; on success stores the stream and sets isStreaming; the
catch block sets one fixed message whatever the cause, and returns normally. -/
def startCamera (s : PhotoCaptureState) (result : Except CameraError Nat) :
    PhotoCaptureState :=
  match result with
  | Except.ok mediaStream =>
      { s with error := none, stream := some mediaStream, isStreaming := true }
  | Except.error _ =>
      { s with error := some cameraFailureMessage }

/-- Response of the /api/enhance-image call as seen by `enhancePhoto`:
either a non-ok HTTP status, or a parsed JSON body with `success` and an
optional `enhancedImage` base64 string. -/
inductive EnhanceResponse
  | httpError (status : Nat)
  | jsonBody (success : Bool) (enhancedImage : Option String)
  deriving DecidableEq, Repr

/-- The non-fatal message enhancePhoto sets on failure (PhotoCapture.tsx line 146). -/
def enhanceFailureMessage : String :=
  "Failed to enhance image. Using original photo instead."

/-- The `enhancePhoto` handler (PhotoCapture.tsx lines 102-152): on an ok
response whose body has truthy `success` and a truthy (non-empty)
`enhancedImage`, stores the enhanced image and moves to `confirm`; every other
outcome lands in the catch block, which sets the fallback error message and
still moves to `confirm`; the finally block clears isEnhancing either way. -/
def enhancePhoto (s : PhotoCaptureState) (resp : EnhanceResponse) : PhotoCaptureState :=
  match resp with
  | EnhanceResponse.httpError _ =>
      { s with isEnhancing := false, error := some enhanceFailureMessage
               currentStep := CaptureStep.confirm }
  | EnhanceResponse.jsonBody success img =>
      if success && (img.getD "" != "") then
        { s with isEnhancing := false, error := none
                 enhancedPhoto := some (img.getD ""), currentStep := CaptureStep.confirm }
      else
        { s with isEnhancing := false, error := some enhanceFailureMessage
                 currentStep := CaptureStep.confirm }

/-- Boolean test that `l` begins with the character list `sub` (JS startsWith). -/
def listStartsWith : List Char → List Char → Bool
  | [], _ => true
  | _ :: _, [] => false
  | a :: as, b :: bs => a == b && listStartsWith as bs

/-- Scan of JS `String.prototype.includes`: try every suffix of `l`. -/
def strIncludesAux (sub : List Char) : List Char → Bool
  | [] => listStartsWith sub []
  | c :: t => listStartsWith sub (c :: t) || strIncludesAux sub t

/-- JS substring containment `s.includes(sub)`. -/
def strIncludes (s sub : String) : Bool :=
  strIncludesAux sub.data s.data

/-- Propositional statement that `sub` occurs contiguously inside `s`. -/
def ContainsSub (s sub : String) : Prop :=
  ∃ pre post, s.data = pre ++ sub.data ++ post

/-- Error-path response of the enhance-image route's catch block
(route.ts lines 240-265). -/
structure EnhanceErrorResponse where
  error : String
  details : String
  errType : String
  isSafetyRejection : Bool
  status : Nat
  deriving DecidableEq, Repr

/-- JSON error response built by the catch block of the enhance-image POST
handler: sets `isSafetyRejection` by substring-matching the error message, and
picks HTTP status 400 for safety rejections and 500 otherwise. -/
def enhanceImageCatch (errorMessage : String) (errorType : String) :
    EnhanceErrorResponse :=
  let isSafetyRejection :=
    strIncludes errorMessage "rejected by the safety system" ||
      strIncludes errorMessage "safety system"
  { error := "Failed to enhance image", details := errorMessage, errType := errorType
    isSafetyRejection := isSafetyRejection
    status := if isSafetyRejection then 400 else 500 }

/-- Result of the switch-mode route handler on its happy path: the string
written to backend/alexa_mode.txt and the JSON response. -/
structure SwitchModeResult where
  fileContent : String
  success : Bool
  message : String
  deriving DecidableEq, Repr

/-- The switch-mode POST handler body: writes 'false' when mode === 'avatar'
and 'true' otherwise, then answers success. -/
def switchModePOST (mode : String) : SwitchModeResult :=
  { fileContent := if mode = "avatar" then "false" else "true"
    success := true
    message := "Mode switched to " ++ mode }

theorem listStartsWith_iff (sub : List Char) :
    ∀ l : List Char, listStartsWith sub l = true ↔ ∃ t, l = sub ++ t := by
  induction sub with
  | nil =>
      intro l
      simp [listStartsWith]
  | cons a as ih =>
      intro l
      cases l with
      | nil => simp [listStartsWith]
      | cons b bs =>
          simp only [listStartsWith, Bool.and_eq_true, beq_iff_eq, ih bs,
            List.cons_append, List.cons.injEq]
          constructor
          · rintro ⟨hab, t, ht⟩
            exact ⟨t, hab.symm, ht⟩
          · rintro ⟨t, hba, ht⟩
            exact ⟨hba.symm, t, ht⟩

theorem strIncludesAux_iff (sub : List Char) :
    ∀ l : List Char, strIncludesAux sub l = true ↔ ∃ pre post, l = pre ++ sub ++ post := by
  intro l
  induction l with
  | nil =>
      simp only [strIncludesAux, listStartsWith_iff]
      constructor
      · rintro ⟨t, ht⟩
        exact ⟨[], t, ht⟩
      · rintro ⟨pre, post, h⟩
        rcases List.append_eq_nil.mp h.symm with ⟨h1, h2⟩
        rcases List.append_eq_nil.mp h1 with ⟨h3, h4⟩
        exact ⟨[], by simp [h2, h3, h4]⟩
  | cons c t ih =>
      simp only [strIncludesAux, Bool.or_eq_true, listStartsWith_iff, ih]
      constructor
      · rintro (⟨u, hu⟩ | ⟨pre, post, h⟩)
        · exact ⟨[], u, by simpa using hu⟩
        · exact ⟨c :: pre, post, by simp [h]⟩
      · rintro ⟨pre, post, h⟩
        cases pre with
        | nil => exact Or.inl ⟨post, by simpa using h⟩
        | cons p ps =>
            rcases List.cons.injEq .. ▸ h with ⟨hc, ht⟩
            exact Or.inr ⟨ps, post, by simpa using ht⟩

theorem strIncludes_iff (s sub : String) :
    strIncludes s sub = true ↔ ContainsSub s sub :=
  strIncludesAux_iff sub.data s.data

/-- C1 counterexample: dispatching PHOTO_CAPTURED from the initial (ready)
state moves step to `ready`, not to a creating state, and the step enum has
exactly the three values photo-capture, ready, skipped — it contains no
'creating-avatar' value, so the claim as stated is false. -/
theorem photoCaptured_no_creating_avatar_step :
    (avatarSetupReducer initialState (AvatarSetupAction.PHOTO_CAPTURED "photo")).step
      = Step.ready ∧ Fintype.card Step = 3 :=
  ⟨rfl, rfl⟩

/-- C1 (amended): for every avatar-setup state whose step is ready or skipped,
dispatching PHOTO_CAPTURED(photo) stores the photo in userPhoto and moves step
to `ready` (the step enum has no 'creating-avatar' value). -/
theorem photoCaptured_stores_photo_step_ready (s : AvatarSetupState) (p : Blob)
    (h : s.step = Step.ready ∨ s.step = Step.skipped) :
    (avatarSetupReducer s (AvatarSetupAction.PHOTO_CAPTURED p)).userPhoto = some p ∧
    (avatarSetupReducer s (AvatarSetupAction.PHOTO_CAPTURED p)).step = Step.ready :=
  ⟨rfl, rfl⟩

/-- C1 witness: the amended transition evaluated at the initial state. -/
theorem photoCaptured_stores_photo_step_ready_witness :
    (initialState.step = Step.ready ∨ initialState.step = Step.skipped) ∧
    ((avatarSetupReducer initialState (AvatarSetupAction.PHOTO_CAPTURED "p")).userPhoto
        = some "p" ∧
      (avatarSetupReducer initialState (AvatarSetupAction.PHOTO_CAPTURED "p")).step
        = Step.ready) :=
  ⟨Or.inl rfl, photoCaptured_stores_photo_step_ready initialState "p" (Or.inl rfl)⟩

/-- C2: from every starting state, PHOTO_CAPTURED(p) followed by
AVATAR_CREATED(id) yields step = ready and assetId = some id. -/
theorem photoCaptured_then_avatarCreated_ready_assetId (s : AvatarSetupState)
    (p : Blob) (id : String) :
    (avatarSetupReducer (avatarSetupReducer s (AvatarSetupAction.PHOTO_CAPTURED p))
        (AvatarSetupAction.AVATAR_CREATED id)).step = Step.ready ∧
    (avatarSetupReducer (avatarSetupReducer s (AvatarSetupAction.PHOTO_CAPTURED p))
        (AvatarSetupAction.AVATAR_CREATED id)).assetId = some id :=
  ⟨rfl, rfl⟩

/-- C3: dispatching AVATAR_CREATION_FAILED(msg) from every state yields
step = ready (never stuck in a creating state) and error = msg, so the
session can proceed. -/
theorem avatarCreationFailed_ready_error (s : AvatarSetupState) (msg : String) :
    (avatarSetupReducer s (AvatarSetupAction.AVATAR_CREATION_FAILED msg)).step
      = Step.ready ∧
    (avatarSetupReducer s (AvatarSetupAction.AVATAR_CREATION_FAILED msg)).error
      = some msg :=
  ⟨rfl, rfl⟩

/-- C4: the reset callback yields exactly the documented initial state
(step ready, userPhoto, assetId and error all null) and removes every
"hedraAssetId" binding from local storage. -/
theorem reset_restores_initial_and_clears_storage (s : AvatarSetupState)
    (store : LocalStorage) :
    (resetAvatarSetup s store).state = initialState ∧
    (resetAvatarSetup s store).state.step = Step.ready ∧
    (resetAvatarSetup s store).state.userPhoto = none ∧
    (resetAvatarSetup s store).state.assetId = none ∧
    (resetAvatarSetup s store).state.error = none ∧
    ((resetAvatarSetup s store).storage.all (fun kv => kv.1 != "hedraAssetId")) = true := by
  refine ⟨rfl, rfl, rfl, rfl, rfl, ?_⟩
  rw [List.all_eq_true]
  intro kv hkv
  exact (List.mem_filter.mp hkv).2

/-- C5: every action other than RESET preserves a set assetId: if assetId is
non-null before the action it is non-null after. -/
theorem assetId_preserved_by_non_reset_actions (s : AvatarSetupState)
    (a : AvatarSetupAction) (ha : a ≠ AvatarSetupAction.RESET)
    (hset : s.assetId.isSome = true) :
    ((avatarSetupReducer s a).assetId).isSome = true := by
  cases a with
  | PHOTO_CAPTURED p => exact hset
  | AVATAR_CREATION_STARTED => exact hset
  | AVATAR_CREATED p => rfl
  | AVATAR_CREATION_FAILED p => exact hset
  | PHOTO_SKIPPED => exact hset
  | SHOW_PHOTO_CAPTURE => exact hset
  | RESET => exact absurd rfl ha

/-- C5 witness: a concrete state with a set assetId keeps it across
PHOTO_SKIPPED. -/
theorem assetId_preserved_witness :
    (AvatarSetupAction.PHOTO_SKIPPED ≠ AvatarSetupAction.RESET) ∧
    ((AvatarSetupState.mk Step.ready none (some "asset-1") none).assetId.isSome = true) ∧
    ((avatarSetupReducer (AvatarSetupState.mk Step.ready none (some "asset-1") none)
        AvatarSetupAction.PHOTO_SKIPPED).assetId.isSome = true) :=
  ⟨by decide, rfl,
    assetId_preserved_by_non_reset_actions
      (AvatarSetupState.mk Step.ready none (some "asset-1") none)
      AvatarSetupAction.PHOTO_SKIPPED (by decide) rfl⟩

/-- C9: AVATAR_CREATION_FAILED changes only step and error: userPhoto and any
previously stored assetId are left unchanged. -/
theorem avatarCreationFailed_preserves_photo_and_assetId (s : AvatarSetupState)
    (msg : String) :
    (avatarSetupReducer s (AvatarSetupAction.AVATAR_CREATION_FAILED msg)).userPhoto
      = s.userPhoto ∧
    (avatarSetupReducer s (AvatarSetupAction.AVATAR_CREATION_FAILED msg)).assetId
      = s.assetId :=
  ⟨rfl, rfl⟩

/-- C6 counterexample: startCamera produces the identical state — the same
single error message — for a NotAllowedError as for a NotFoundError (and the
message names no specific cause), so the error is not classified by failure
cause and the claim as stated is false. -/
theorem startCamera_error_not_classified :
    startCamera initialPhotoCaptureState (Except.error CameraError.notAllowed)
      = startCamera initialPhotoCaptureState (Except.error CameraError.notFound) ∧
    (startCamera initialPhotoCaptureState
        (Except.error CameraError.notAllowed)).error = some cameraFailureMessage :=
  ⟨rfl, rfl⟩

/-- C6 (amended): for every failing camera request, startCamera resolves
without throwing, sets one fixed human-readable error message regardless of
the failure cause, and the engine remains non-streaming. -/
theorem startCamera_failure_generic_message_idle (s : PhotoCaptureState)
    (e : CameraError) (h : s.isStreaming = false) :
    (startCamera s (Except.error e)).error = some cameraFailureMessage ∧
    (startCamera s (Except.error e)).isStreaming = false :=
  ⟨rfl, h⟩

/-- C6 witness: a denied permission request from the idle state. -/
theorem startCamera_failure_generic_message_idle_witness :
    (initialPhotoCaptureState.isStreaming = false) ∧
    ((startCamera initialPhotoCaptureState
        (Except.error CameraError.notAllowed)).error = some cameraFailureMessage ∧
      (startCamera initialPhotoCaptureState
        (Except.error CameraError.notAllowed)).isStreaming = false) :=
  ⟨rfl, startCamera_failure_generic_message_idle initialPhotoCaptureState
    CameraError.notAllowed rfl⟩

/-- C7: on every failing enhancement response (HTTP error such as 500, a body
without success, or a body without an image) enhancePhoto still moves
currentStep to `confirm`, leaves enhancedPhoto null (the original unenhanced
image keeps being used) and sets the non-fatal fallback error message; on a
successful response it moves to `confirm` with the enhanced image set. -/
theorem enhancePhoto_failure_falls_back_success_sets_enhanced
    (s : PhotoCaptureState) (st : Nat) (img img2 : String)
    (hphoto : s.enhancedPhoto = none) (himg : img ≠ "") :
    ((enhancePhoto s (EnhanceResponse.httpError st)).currentStep = CaptureStep.confirm ∧
      (enhancePhoto s (EnhanceResponse.httpError st)).enhancedPhoto = none ∧
      (enhancePhoto s (EnhanceResponse.httpError st)).error = some enhanceFailureMessage) ∧
    ((enhancePhoto s (EnhanceResponse.jsonBody false (some img2))).currentStep
        = CaptureStep.confirm ∧
      (enhancePhoto s (EnhanceResponse.jsonBody false (some img2))).enhancedPhoto = none ∧
      (enhancePhoto s (EnhanceResponse.jsonBody false (some img2))).error
        = some enhanceFailureMessage) ∧
    ((enhancePhoto s (EnhanceResponse.jsonBody true none)).currentStep
        = CaptureStep.confirm ∧
      (enhancePhoto s (EnhanceResponse.jsonBody true none)).enhancedPhoto = none ∧
      (enhancePhoto s (EnhanceResponse.jsonBody true none)).error
        = some enhanceFailureMessage) ∧
    ((enhancePhoto s (EnhanceResponse.jsonBody true (some img))).currentStep
        = CaptureStep.confirm ∧
      (enhancePhoto s (EnhanceResponse.jsonBody true (some img))).enhancedPhoto
        = some img) := by
  have hne : (img != "") = true := bne_iff_ne.mpr himg
  refine ⟨⟨rfl, by simp [enhancePhoto, hphoto], rfl⟩, ?_, ?_, ?_⟩
  · simp [enhancePhoto, hphoto]
  · simp [enhancePhoto, hphoto]
  · simp [enhancePhoto, hne]

/-- C7 witness: enhancement evaluated at the freshly captured component state,
with an HTTP 500 failure and with a successful body. -/
theorem enhancePhoto_fallback_witness :
    (initialPhotoCaptureState.enhancedPhoto = none) ∧ ("img64" ≠ "") ∧
    (((enhancePhoto initialPhotoCaptureState (EnhanceResponse.httpError 500)).currentStep
        = CaptureStep.confirm ∧
      (enhancePhoto initialPhotoCaptureState
          (EnhanceResponse.httpError 500)).enhancedPhoto = none ∧
      (enhancePhoto initialPhotoCaptureState (EnhanceResponse.httpError 500)).error
        = some enhanceFailureMessage) ∧
    ((enhancePhoto initialPhotoCaptureState
          (EnhanceResponse.jsonBody false (some "x"))).currentStep
        = CaptureStep.confirm ∧
      (enhancePhoto initialPhotoCaptureState
          (EnhanceResponse.jsonBody false (some "x"))).enhancedPhoto = none ∧
      (enhancePhoto initialPhotoCaptureState
          (EnhanceResponse.jsonBody false (some "x"))).error
        = some enhanceFailureMessage) ∧
    ((enhancePhoto initialPhotoCaptureState
          (EnhanceResponse.jsonBody true none)).currentStep = CaptureStep.confirm ∧
      (enhancePhoto initialPhotoCaptureState
          (EnhanceResponse.jsonBody true none)).enhancedPhoto = none ∧
      (enhancePhoto initialPhotoCaptureState
          (EnhanceResponse.jsonBody true none)).error = some enhanceFailureMessage) ∧
    ((enhancePhoto initialPhotoCaptureState
          (EnhanceResponse.jsonBody true (some "img64"))).currentStep
        = CaptureStep.confirm ∧
      (enhancePhoto initialPhotoCaptureState
          (EnhanceResponse.jsonBody true (some "img64"))).enhancedPhoto
        = some "img64")) :=
  ⟨rfl, by decide,
    enhancePhoto_failure_falls_back_success_sets_enhanced initialPhotoCaptureState
      500 "img64" "x" rfl (by decide)⟩

/-- C8: the enhance-image catch block flags isSafetyRejection exactly when the
error message contains "rejected by the safety system" or contains
"safety system"; flagged responses get status 400 and unflagged ones 500. -/
theorem enhance_route_safety_rejection_flag (msg ty : String) :
    ((enhanceImageCatch msg ty).isSafetyRejection = true ↔
      (ContainsSub msg "rejected by the safety system" ∨
        ContainsSub msg "safety system")) ∧
    ((enhanceImageCatch msg ty).isSafetyRejection = true →
      (enhanceImageCatch msg ty).status = 400) ∧
    ((enhanceImageCatch msg ty).isSafetyRejection = false →
      (enhanceImageCatch msg ty).status = 500) := by
  refine ⟨?_, ?_, ?_⟩
  · simp only [enhanceImageCatch, Bool.or_eq_true, strIncludes_iff]
  · intro h
    simp only [enhanceImageCatch] at h ⊢
    rw [h]
    rfl
  · intro h
    simp only [enhanceImageCatch] at h ⊢
    rw [h]
    rfl

/-- C8 witness: a message containing the safety phrase is flagged and answered
with status 400; an unrelated message is unflagged and answered with 500. -/
theorem enhance_route_safety_rejection_flag_witness :
    ((enhanceImageCatch "request rejected by the safety system" "E").status = 400) ∧
    ((enhanceImageCatch "network timeout" "E").status = 500) :=
  ⟨(enhance_route_safety_rejection_flag "request rejected by the safety system" "E").2.1
      rfl,
    (enhance_route_safety_rejection_flag "network timeout" "E").2.2 rfl⟩

/-- C10: the switch-mode handler writes 'false' to alexa_mode.txt exactly when
the requested mode is 'avatar', writes 'true' for every other mode value, and
responds with success = true. -/
theorem switch_mode_writes_false_iff_avatar (mode : String) :
    ((switchModePOST mode).fileContent = "false" ↔ mode = "avatar") ∧
    ((switchModePOST mode).fileContent = "true" ↔ mode ≠ "avatar") ∧
    (switchModePOST mode).success = true := by
  rcases eq_or_ne mode "avatar" with h | h
  · subst h
    refine ⟨by simp [switchModePOST], ?_, rfl⟩
    simp only [switchModePOST, if_pos rfl]
    constructor
    · intro hft
      exact absurd hft (by decide)
    · intro hne
      exact absurd rfl hne
  · refine ⟨?_, ?_, rfl⟩
    · simp only [switchModePOST, if_neg h]
      constructor
      · intro hft
        exact absurd hft (by decide)
      · intro havatar
        exact absurd havatar h
    · simp [switchModePOST, if_neg h, h]

/-- C10 witness: the handler evaluated at mode 'avatar' and at another mode. -/
theorem switch_mode_writes_false_iff_avatar_witness :
    ((switchModePOST "avatar").fileContent = "false") ∧
    ((switchModePOST "alexa").fileContent = "true") ∧
    ((switchModePOST "alexa").success = true) :=
  ⟨(switch_mode_writes_false_iff_avatar "avatar").1.mpr rfl,
    (switch_mode_writes_false_iff_avatar "alexa").2.1.mpr (by decide),
    (switch_mode_writes_false_iff_avatar "alexa").2.2⟩

end AvatarApp
